import Mathlib

/-!
Verification of the RAG core of the Flask-CRUD-RAG-LLM repository.

The Python sources (`app/rag_utils.py`, `app/routes.py`, `app/config.py`)
are shallowly embedded below.  Library calls that are external to the
repository (the embedding model, the FAISS nearest-neighbour search, the
Ollama backend, the text splitter) are modelled as explicit parameters:

* the embedding + distance computation is a parameter
  `score : String → Chunk → Int` (smaller score = nearer neighbour);
  FAISS `index.search(v, fetch_k)` is then "sort all vectors by score,
  take the first `fetch_k`", which is exactly the k-nearest-neighbour
  contract of FAISS;
* the LangChain FAISS wrapper's `similarity_search(query, k, fetch_k,
  filter)` searches `fetch_k` candidates, keeps those whose metadata
  matches every key/value pair of `filter`, and returns the first `k`
  of the survivors — transcribed in `FAISSStore.similarity_search`;
* the Ollama LLM backend is a parameter `invoke : Nat → Except PyExc
  String` giving the outcome of each successive `model.invoke` call.

All repository-level logic (metadata tagging, owner filtering, retry
loop, error classification, clamping, route bodies) is transcribed from
the Python source line by line.
-/

/-- Substring scan: does `n` occur (contiguously) in the second list? -/
def pyInAux (n : List Char) : List Char → Bool
  | [] => n.isEmpty
  | c :: cs => n.isPrefixOf (c :: cs) || pyInAux n cs

/-- Python's `needle in haystack` on strings (substring containment). -/
def pyIn (needle haystack : String) : Bool :=
  pyInAux needle.data haystack.data

/-- Python's `s.strip()`: drop leading and trailing whitespace. -/
def pyStrip (s : String) : String :=
  ⟨((s.data.dropWhile Char.isWhitespace).reverse.dropWhile Char.isWhitespace).reverse⟩

/-- Python's `s.lower()` (character-wise, as the source only lowers
ASCII error texts and extensions). -/
def pyLower (s : String) : String :=
  ⟨s.data.map Char.toLower⟩

/-- Split a character list on a separator character (Python `s.split(sep)`
shape: n separators yield n+1 fields, empty fields kept). -/
def splitOnChar (sep : Char) : List Char → List (List Char)
  | [] => [[]]
  | c :: cs =>
    let rest := splitOnChar sep cs
    if c = sep then [] :: rest
    else
      match rest with
      | [] => [[c]]
      | r :: rs => (c :: r) :: rs

/-- A LangChain document chunk: page content plus a string-keyed metadata
dictionary (modelled as an association list, first binding wins on read,
as for a Python dict built by successive assignment). -/
structure Chunk where
  page_content : String
  metadata : List (String × String)
deriving DecidableEq

/-- `dict.get(key)` — `none` when the key is absent. -/
def metaGet (m : List (String × String)) (key : String) : Option String :=
  m.lookup key

/-- Python dict assignment `m[key] = v`: overwrite the binding when the key
is present, append it otherwise. -/
def metaSet (m : List (String × String)) (key v : String) : List (String × String) :=
  if m.any (fun p => p.1 == key) then
    m.map (fun p => if p.1 == key then (key, v) else p)
  else
    m ++ [(key, v)]

/-- Insertion step of the nearest-neighbour ordering. -/
def insertBy (le : Chunk → Chunk → Bool) (a : Chunk) : List Chunk → List Chunk
  | [] => [a]
  | b :: bs => if le a b then a :: b :: bs else b :: insertBy le a bs

/-- Stable insertion sort; models FAISS returning vectors ordered by
distance to the query. -/
def sortBy (le : Chunk → Chunk → Bool) : List Chunk → List Chunk
  | [] => []
  | a :: as => insertBy le a (sortBy le as)

/-- The in-memory FAISS store: the ordered list of stored documents
(each already paired with its embedding, which only matters through the
`score` parameter of a search). -/
structure FAISSStore where
  docs : List Chunk
deriving DecidableEq

/-- `vs.index.ntotal` — number of vectors in the index. -/
def FAISSStore.ntotal (vs : FAISSStore) : Nat := vs.docs.length

/-- LangChain's filter function for a dict filter `{key: value}`:
keep a document iff `doc.metadata.get(key) == value`. -/
def filterMatch (key value : String) (c : Chunk) : Bool :=
  metaGet c.metadata key == some value

/-- LangChain `FAISS.similarity_search(query, k, fetch_k, filter={key: value})`:
search the `fetch_k` nearest vectors, keep those matching the metadata
filter, return the top `k` survivors (nearest first). -/
def FAISSStore.similarity_search (vs : FAISSStore) (score : Chunk → Int)
    (k fetch_k : Nat) (key value : String) : List Chunk :=
  ((((sortBy (fun a b => decide (score a ≤ score b)) vs.docs).take fetch_k).filter
      (filterMatch key value)).take k)

/-- The placeholder document seeded into a freshly created index
(`rag_utils._get_vectorstore`, else-branch). -/
def placeholderDoc : Chunk :=
  { page_content := "placeholder"
    metadata := [("user_id", "0"), ("doc_id", "0")] }

/-- On-disk state of the vector store directory: `some s` when persisted
index files exist at the configured location, `none` otherwise. -/
structure DiskState where
  persisted : Option FAISSStore
deriving DecidableEq

/-- `rag_utils._get_vectorstore`: lazy-load the FAISS store.  `cached` is
the `_vectorstore` module global.  Returns the store together with the
resulting cache and disk states. -/
def _get_vectorstore (cached : Option FAISSStore) (disk : DiskState) :
    FAISSStore × Option FAISSStore × DiskState :=
  match cached with
  | some vs => (vs, some vs, disk)
  | none =>
    match disk.persisted with
    | some vs => (vs, some vs, disk)
    | none =>
      let vs : FAISSStore := { docs := [placeholderDoc] }
      (vs, some vs, { persisted := some vs })

/-- `rag_utils.store_chunks`: tag each chunk with `user_id`, `doc_id`,
`filename`, `upload_date` (all stringified) and append them to the store. -/
def store_chunks (vs : FAISSStore) (chunks : List Chunk) (user_id doc_id : Nat)
    (filename upload_date : String) : FAISSStore :=
  let tagged := chunks.map (fun c =>
    let m1 := metaSet c.metadata "user_id" (toString user_id)
    let m2 := metaSet m1 "doc_id" (toString doc_id)
    let m3 := metaSet m2 "filename" filename
    let m4 := metaSet m3 "upload_date" upload_date
    { c with metadata := m4 })
  { docs := vs.docs ++ tagged }

/-- `rag_utils.delete_chunks`: the Python body only logs a message; the
store is not touched in any way (soft delete per the source comment). -/
def delete_chunks (vs : FAISSStore) (doc_id : String) : FAISSStore :=
  let _ := doc_id
  vs

/-- `rag_utils.retrieve_relevant_chunks`: similarity search filtered to
this user's documents, with `fetch_k = max(20, index.ntotal)`. -/
def retrieve_relevant_chunks (score : String → Chunk → Int) (vs : FAISSStore)
    (question : String) (user_id : Nat) (k : Nat := 4) : List Chunk :=
  let total_docs := vs.ntotal
  let fetch_k := max 20 total_docs
  vs.similarity_search (score question) k fetch_k "user_id" (toString user_id)

/-- `rag_utils.build_prompt`: grounded RAG prompt.  Each context block is
`[filename (Uploaded: date)]` followed by the chunk content; blocks are
joined by a visible separator. -/
def build_prompt (question : String) (chunks : List Chunk) : String :=
  let context_blocks := chunks.map (fun c =>
    let fname := (metaGet c.metadata "filename").getD "Unknown File"
    let date := (metaGet c.metadata "upload_date").getD "Unknown Date"
    "[" ++ fname ++ " (Uploaded: " ++ date ++ ")]\n" ++ c.page_content)
  let context_text := String.intercalate "\n\n---\n\n" context_blocks
  "You are an expert tutor helping a student study from their own notes and documents.\n\nRULES:\n- Answer ONLY using the Context below.\n- If the answer is not in the Context, respond EXACTLY: \"I don\x27t have that in my notes.\"\n- Do not use your general knowledge, even if you know the answer.\n- Cite which part of the context your answer came from.\n- Document Metadata (Filename and Upload Date) are provided at the start of each context block in brackets like [file.pdf (Uploaded: date)]. Use this metadata to answer questions about the user\x27s files and recent uploads.\n- Use clear, well-structured formatting with bullet points when appropriate.\n\nContext:\n"
    ++ context_text ++ "\n\nQuestion: " ++ question ++ "\n\nAnswer:"

/-- The fixed refusal sentence the grounded prompt instructs the model to
emit when the answer is absent from context. -/
def REFUSAL_SENTENCE : String := "I don\x27t have that in my notes."

-- ── LLM generation (`rag_utils.generate_answer`) ─────────────────────

/-- A Python exception raised by the backend, as observed by the handler
(`type(e).__name__` and `str(e)`). -/
structure PyExc where
  typeName : String
  msg : String
deriving DecidableEq

/-- How a call to `generate_answer` ends: it returns a string, or an
exception escapes to the caller. -/
inductive GenOutcome where
  | returned (text : String)
  | raised (e : PyExc)
deriving DecidableEq

/-- Observable result of `generate_answer`: outcome, number of
`model.invoke` calls made, and number of `time.sleep(2)` back-off waits. -/
structure GenResult where
  outcome : GenOutcome
  calls : Nat
  sleeps : Nat
deriving DecidableEq

/-- User-facing message for an unreachable local Ollama backend
("connection refused" / "connect" classified errors). -/
def OLLAMA_NOT_RUNNING_MSG : String :=
  "⚠️ **Ollama is not running.**<br><br>Please open your terminal and run:<br><code>ollama run llama3.2</code><br><br>Leave that terminal running in the background, then try your question again."

/-- User-facing message for a missing local model ("not found" errors). -/
def MODEL_NOT_FOUND_MSG : String :=
  "⚠️ **Model not found.**<br><br>You need to download the model first. Open your terminal and run:<br><code>ollama run llama3.2</code>"

/-- Message prepended to the raw error on the last failed attempt. -/
def LOCAL_GEN_FAILED_MSG : String := "❌ Local generation failed: "

/-- Message returned when the retry loop body never runs (retries = 0). -/
def NO_ANSWER_MSG : String :=
  "Unable to generate an answer from the local model at this time."

/-- The `for attempt in range(retries)` loop of `generate_answer`.
`model_invoke n` is the outcome of the `model.invoke(prompt)` call on
attempt `n` (0-based); the third argument is the number of attempts still
available (including the current one). -/
def genGo (model_invoke : Nat → Except PyExc String) (attempt : Nat) :
    Nat → Nat → Nat → GenResult
  | 0, calls, sleeps => ⟨.returned NO_ANSWER_MSG, calls, sleeps⟩
  | left + 1, calls, sleeps =>
    match model_invoke attempt with
    | .ok response => ⟨.returned response, calls + 1, sleeps⟩
    | .error e =>
      let error_str := pyLower e.msg
      if pyIn "connection refused" error_str || pyIn "connect" error_str then
        ⟨.returned OLLAMA_NOT_RUNNING_MSG, calls + 1, sleeps⟩
      else if pyIn "not found" error_str then
        ⟨.returned MODEL_NOT_FOUND_MSG, calls + 1, sleeps⟩
      else if left = 0 then
        ⟨.returned (LOCAL_GEN_FAILED_MSG ++ e.msg), calls + 1, sleeps⟩
      else
        genGo model_invoke (attempt + 1) left (calls + 1) (sleeps + 1)

/-- `rag_utils.generate_answer(prompt, retries=3)`: send the prompt to the
local Ollama backend with the retry/classification loop of the source. -/
def generate_answer (model_invoke : Nat → Except PyExc String)
    (retries : Nat := 3) : GenResult :=
  genGo model_invoke 0 retries 0 0

-- ── chat route (`routes.chat`, POST /chat) ───────────────────────────

/-- Parsed JSON body of a chat request (`data.get("question")`). -/
structure ChatReq where
  question : Option String
deriving DecidableEq

/-- Observable outcome of the chat route: the JSON payload, the HTTP
status, and whether retrieval / generation were reached. -/
structure ChatResult where
  json : List (String × String)
  status : Nat
  retrievalCalled : Bool
  generationCalled : Bool
deriving DecidableEq

/-- Chat answer when retrieval comes back empty (source concatenates two
adjacent string literals). -/
def NO_DOCS_MSG : String :=
  "No relevant documents found. Try uploading some notes first!"

/-- Rate-limit answer of the chat exception handler. -/
def RATE_LIMIT_MSG : String :=
  "⏳ API rate limit reached. The free tier has limited daily requests. Please wait a minute and try again."

/-- The `is_rate_limit` classification of the chat exception handler. -/
def is_rate_limit (e : PyExc) : Bool :=
  pyIn "429" e.msg || pyIn "resourceexhausted" (pyLower e.typeName) ||
    pyIn "resource_exhausted" (pyLower e.msg) || pyIn "quota" (pyLower e.msg)

/-- `routes.chat` (POST): transcription of the handler body.  `invoke p n`
is the backend outcome for prompt `p` on attempt `n`; `data = none` models
`request.get_json(silent=True)` returning nothing. -/
def chat (score : String → Chunk → Int) (vs : FAISSStore)
    (invoke : String → Nat → Except PyExc String) (user_id : Nat)
    (data : Option ChatReq) : ChatResult :=
  match data with
  | none => ⟨[("error", "Invalid request.")], 400, false, false⟩
  | some d =>
    let question := pyStrip (d.question.getD "")
    if question = "" then ⟨[("error", "Empty question.")], 400, false, false⟩
    else
      let chunks := retrieve_relevant_chunks score vs question user_id 4
      if chunks.isEmpty then ⟨[("answer", NO_DOCS_MSG)], 200, true, false⟩
      else
        let prompt := build_prompt question chunks
        let res := generate_answer (invoke prompt) 3
        match res.outcome with
        | .returned answer => ⟨[("answer", answer)], 200, true, true⟩
        | .raised e =>
          if is_rate_limit e then ⟨[("answer", RATE_LIMIT_MSG)], 200, true, true⟩
          else ⟨[("error", "Something went wrong. Please try again.")], 500, true, true⟩

-- ── creative prompt builders (`rag_utils`) ───────────────────────────

/-- `rag_utils._extract_context`: plain concatenation of chunk contents. -/
def _extract_context (chunks : List Chunk) : String :=
  String.intercalate "\n\n" (chunks.map (fun c => c.page_content))

/-- `rag_utils.build_quiz_prompt`. -/
def build_quiz_prompt (chunks : List Chunk) (num_questions : Int := 5)
    (topic : String := "") : String :=
  let context := _extract_context chunks
  let topic_filter :=
    if topic ≠ "" then " Focus on the topic: \"" ++ topic ++ "\"." else ""
  "You are a quiz generator. Create exactly " ++ toString num_questions
    ++ " multiple-choice questions based ONLY on the Context below." ++ topic_filter
    ++ "\n\nRULES:\n- Each question must have exactly 4 options labeled A, B, C, D.\n- Only ONE option is correct.\n- Questions should test understanding, not just recall.\n- Return ONLY valid JSON, no markdown, no extra text.\n\nContext:\n"
    ++ context
    ++ "\n\nReturn this exact JSON format:\n\x7b\n  \"questions\": [\n    \x7b\n      \"id\": 1,\n      \"question\": \"What is ...?\",\n      \"options\": \x7b\n        \"A\": \"Option A text\",\n        \"B\": \"Option B text\",\n        \"C\": \"Option C text\",\n        \"D\": \"Option D text\"\n      \x7d,\n      \"correct\": \"B\",\n      \"explanation\": \"Brief explanation of why B is correct.\"\n    \x7d\n  ]\n\x7d"

/-- `rag_utils.build_puzzle_prompt` (two sub-variants on `puzzle_type`). -/
def build_puzzle_prompt (chunks : List Chunk) (puzzle_type : String := "fill_blank")
    (count : Int := 8) : String :=
  let context := _extract_context chunks
  if puzzle_type = "scramble" then
    "You are a word puzzle creator. Create exactly " ++ toString count
      ++ " word scramble puzzles based ONLY on the Context below.\n\nRULES:\n- Pick important keywords/terms from the context.\n- Provide a hint (definition or description) for each word.\n- Return ONLY valid JSON, no markdown, no extra text.\n\nContext:\n"
      ++ context
      ++ "\n\nReturn this exact JSON format:\n\x7b\n  \"puzzles\": [\n    \x7b\n      \"id\": 1,\n      \"word\": \"ALGORITHM\",\n      \"hint\": \"A step-by-step procedure for solving a problem.\"\n    \x7d\n  ]\n\x7d"
  else
    "You are a fill-in-the-blank puzzle creator. Create exactly " ++ toString count
      ++ " fill-in-the-blank sentences based ONLY on the Context below.\n\nRULES:\n- Each sentence should have exactly ONE blank (marked as ___).\n- The blank should replace an important keyword or concept.\n- Provide the correct answer for each blank.\n- Return ONLY valid JSON, no markdown, no extra text.\n\nContext:\n"
      ++ context
      ++ "\n\nReturn this exact JSON format:\n\x7b\n  \"puzzles\": [\n    \x7b\n      \"id\": 1,\n      \"sentence\": \"The process of ___ converts raw data into useful information.\",\n      \"answer\": \"processing\",\n      \"hint\": \"Starts with \x27p\x27\"\n    \x7d\n  ]\n\x7d"

/-- `rag_utils.build_questions_prompt` (three sub-variants on `q_type`). -/
def build_questions_prompt (chunks : List Chunk) (q_type : String := "short_answer")
    (count : Int := 6) : String :=
  let context := _extract_context chunks
  if q_type = "true_false" then
    "You are a study question creator. Create exactly " ++ toString count
      ++ " true/false questions based ONLY on the Context below.\n\nRULES:\n- Mix true and false statements roughly equally.\n- Statements should be clear and unambiguous.\n- Return ONLY valid JSON, no markdown, no extra text.\n\nContext:\n"
      ++ context
      ++ "\n\nReturn this exact JSON format:\n\x7b\n  \"questions\": [\n    \x7b\n      \"id\": 1,\n      \"statement\": \"The earth revolves around the sun.\",\n      \"answer\": true,\n      \"explanation\": \"This is correct because...\"\n    \x7d\n  ]\n\x7d"
  else if q_type = "flashcard" then
    "You are a flashcard creator. Create exactly " ++ toString count
      ++ " flashcards based ONLY on the Context below.\n\nRULES:\n- The front should be a concise question or term.\n- The back should be a clear, concise answer or definition.\n- Focus on key concepts and important details.\n- Return ONLY valid JSON, no markdown, no extra text.\n\nContext:\n"
      ++ context
      ++ "\n\nReturn this exact JSON format:\n\x7b\n  \"flashcards\": [\n    \x7b\n      \"id\": 1,\n      \"front\": \"What is machine learning?\",\n      \"back\": \"A subset of AI that enables systems to learn from data without being explicitly programmed.\"\n    \x7d\n  ]\n\x7d"
  else
    "You are a study question creator. Create exactly " ++ toString count
      ++ " short-answer questions based ONLY on the Context below.\n\nRULES:\n- Questions should require a 1-3 sentence answer.\n- Cover different aspects of the content.\n- Include the model answer for each question.\n- Return ONLY valid JSON, no markdown, no extra text.\n\nContext:\n"
      ++ context
      ++ "\n\nReturn this exact JSON format:\n\x7b\n  \"questions\": [\n    \x7b\n      \"id\": 1,\n      \"question\": \"Explain the concept of...\",\n      \"answer\": \"The concept refers to...\"\n    \x7d\n  ]\n\x7d"

-- ── generator routes (`routes.quiz_generate` etc.) ───────────────────

/-- Parsed JSON body of a quiz request. -/
structure QuizReq where
  num_questions : Option Int
  topic : Option String
deriving DecidableEq

/-- Parsed JSON body of a puzzle request. -/
structure PuzzleReq where
  type : Option String
  count : Option Int
deriving DecidableEq

/-- Parsed JSON body of a question-bank request. -/
structure QuestionsReq where
  type : Option String
  count : Option Int
deriving DecidableEq

/-- Observable outcome of a generator route: JSON payload, HTTP status,
the prompt passed to `generate_answer` (when one was built) and the item
count that prompt was built with. -/
structure RouteResult where
  json : List (String × String)
  status : Nat
  prompt : Option String
  promptCount : Option Int
deriving DecidableEq

/-- `routes.quiz_generate` (POST /quiz/generate). -/
def quiz_generate (score : String → Chunk → Int) (vs : FAISSStore)
    (invoke : String → Nat → Except PyExc String) (user_id : Nat)
    (data : Option QuizReq) : RouteResult :=
  match data with
  | none => ⟨[("error", "Invalid request.")], 400, none, none⟩
  | some d =>
    let num_questions : Int := min (d.num_questions.getD 5) 10
    let topic := pyStrip (d.topic.getD "")
    let query := if topic ≠ "" then topic else "key concepts and important topics"
    let chunks := retrieve_relevant_chunks score vs query user_id 6
    if chunks.isEmpty then
      ⟨[("error", "No documents found. Upload some files first!")], 200, none, none⟩
    else
      let prompt := build_quiz_prompt chunks num_questions topic
      let res := generate_answer (invoke prompt) 3
      match res.outcome with
      | .returned t => ⟨[("result", t)], 200, some prompt, some num_questions⟩
      | .raised _ =>
        ⟨[("error", "Failed to generate quiz. Please try again.")], 500,
          some prompt, some num_questions⟩

/-- `routes.puzzle_generate` (POST /puzzle/generate). -/
def puzzle_generate (score : String → Chunk → Int) (vs : FAISSStore)
    (invoke : String → Nat → Except PyExc String) (user_id : Nat)
    (data : Option PuzzleReq) : RouteResult :=
  match data with
  | none => ⟨[("error", "Invalid request.")], 400, none, none⟩
  | some d =>
    let puzzle_type := d.type.getD "fill_blank"
    let count : Int := min (d.count.getD 8) 12
    let chunks :=
      retrieve_relevant_chunks score vs "important concepts and key terms" user_id 6
    if chunks.isEmpty then
      ⟨[("error", "No documents found. Upload some files first!")], 200, none, none⟩
    else
      let prompt := build_puzzle_prompt chunks puzzle_type count
      let res := generate_answer (invoke prompt) 3
      match res.outcome with
      | .returned t => ⟨[("result", t)], 200, some prompt, some count⟩
      | .raised _ =>
        ⟨[("error", "Failed to generate puzzle. Please try again.")], 500,
          some prompt, some count⟩

/-- `routes.questions_generate` (POST /questions/generate). -/
def questions_generate (score : String → Chunk → Int) (vs : FAISSStore)
    (invoke : String → Nat → Except PyExc String) (user_id : Nat)
    (data : Option QuestionsReq) : RouteResult :=
  match data with
  | none => ⟨[("error", "Invalid request.")], 400, none, none⟩
  | some d =>
    let q_type := d.type.getD "short_answer"
    let count : Int := min (d.count.getD 6) 10
    let chunks :=
      retrieve_relevant_chunks score vs "key concepts and study material" user_id 6
    if chunks.isEmpty then
      ⟨[("error", "No documents found. Upload some files first!")], 200, none, none⟩
    else
      let prompt := build_questions_prompt chunks q_type count
      let res := generate_answer (invoke prompt) 3
      match res.outcome with
      | .returned t => ⟨[("result", t)], 200, some prompt, some count⟩
      | .raised _ =>
        ⟨[("error", "Failed to generate questions. Please try again.")], 500,
          some prompt, some count⟩

-- ── chunker and upload gate (`rag_utils.load_and_chunk`, `routes._allowed_file`) ──

/-- `config.Config.ALLOWED_EXTENSIONS`. -/
def ALLOWED_EXTENSIONS : List String := ["pdf", "txt", "md"]

/-- `filename.rsplit(".", 1)[1]`: the part after the last dot (meaningful
only when the name contains a dot, as guarded in `_allowed_file`). -/
def rsplitLast (filename : String) : String :=
  ⟨(splitOnChar '.' filename.data).getLastD []⟩

/-- `routes._allowed_file`: extension whitelist check of the upload route. -/
def _allowed_file (filename : String) : Bool :=
  pyIn "." filename && ALLOWED_EXTENSIONS.contains (pyLower (rsplitLast filename))

/-- `os.path.splitext(filepath)[1]`: the final extension including its
dot, `""` when the path has no dot.  (The splitext special case for names
that start with a dot is not modelled; no claim depends on it.) -/
def splitextExt (filepath : String) : String :=
  let parts := splitOnChar '.' filepath.data
  if parts.length ≤ 1 then "" else "." ++ (⟨parts.getLastD []⟩ : String)

/-- A file as seen through the document loaders: its path plus the
outcome of text extraction — `none` when the applicable loader cannot
decode/extract the content, `some pages` the extracted pages (a single
element for the text loader). -/
structure SrcFile where
  path : String
  extracted : Option (List String)
deriving DecidableEq

/-- The only failure `load_and_chunk` can surface: the loader raised
while decoding/extracting.  Note the source defines no
unsupported-format failure. -/
inductive LoadError where
  | extractionFailed (path : String)
deriving DecidableEq

/-- `rag_utils.load_and_chunk`: choose the loader by extension (`.pdf` →
PyPDFLoader, anything else → TextLoader with utf-8), load, then split.
The splitter (`RecursiveCharacterTextSplitter`, external library) is the
parameter `splitter`. -/
def load_and_chunk (splitter : List String → List Chunk) (f : SrcFile) :
    Except LoadError (List Chunk) :=
  let ext := pyLower (splitextExt f.path)
  if ext = ".pdf" then
    match f.extracted with
    | none => .error (.extractionFailed f.path)
    | some pages => .ok (splitter pages)
  else
    match f.extracted with
    | none => .error (.extractionFailed f.path)
    | some pages => .ok (splitter pages)

-- ── concrete fixtures for witnesses and counterexamples ──────────────

/-- Constant similarity score used in concrete examples. -/
def score0 : String → Chunk → Int := fun _ _ => 0

/-- Backend that always succeeds, used in concrete examples. -/
def invoke0 : String → Nat → Except PyExc String := fun _ _ => .ok "ok"

/-- A freshly bootstrapped store (placeholder entry only). -/
def vs0 : FAISSStore := { docs := [placeholderDoc] }

/-- An untagged chunk as emitted by the chunker. -/
def rawChunk : Chunk := { page_content := "alpha beta", metadata := [] }

/-- The store after ingesting one document (doc 42) for user 7. -/
def vs42 : FAISSStore :=
  store_chunks vs0 [rawChunk] 7 42 "notes.txt" "2024-01-01 00:00:00 UTC"

/-- The tagged chunk of document 42 as it sits inside `vs42`. -/
def chunk42 : Chunk :=
  { page_content := "alpha beta"
    metadata := [("user_id", "7"), ("doc_id", "42"), ("filename", "notes.txt"),
                 ("upload_date", "2024-01-01 00:00:00 UTC")] }

/-- A backend error that the chat handler classifies as rate limit. -/
def rateLimitExc : PyExc := { typeName := "Exception", msg := "429 quota exceeded" }

/-- A backend error matching none of the source classifiers. -/
def unclassifiedExc : PyExc := { typeName := "ValueError", msg := "boom" }

/-- Splitter used in concrete chunker examples: one chunk per page. -/
def splitter0 : List String → List Chunk :=
  fun pages => pages.map (fun p => { page_content := p, metadata := [] })

-- ── basic list lemmas about the search pipeline ──────────────────────

theorem perm_insertBy (le : Chunk → Chunk → Bool) (a : Chunk) (l : List Chunk) :
    (insertBy le a l).Perm (a :: l) := by
  induction l with
  | nil => simp [insertBy]
  | cons b bs ih =>
    simp only [insertBy]
    split
    · exact List.Perm.refl _
    · exact (ih.cons b).trans (List.Perm.swap a b bs)

theorem perm_sortBy (le : Chunk → Chunk → Bool) (l : List Chunk) :
    (sortBy le l).Perm l := by
  induction l with
  | nil => simp [sortBy]
  | cons a as ih =>
    exact (perm_insertBy le a (sortBy le as)).trans (ih.cons a)

theorem length_sortBy (le : Chunk → Chunk → Bool) (l : List Chunk) :
    (sortBy le l).length = l.length :=
  (perm_sortBy le l).length_eq

/-- Every chunk returned by a filtered similarity search satisfies the
metadata filter. -/
theorem mem_similarity_search_filterMatch {vs : FAISSStore}
    {score : Chunk → Int} {k fetch_k : Nat} {key value : String} {c : Chunk}
    (h : c ∈ vs.similarity_search score k fetch_k key value) :
    filterMatch key value c = true := by
  have h1 := List.mem_of_mem_take h
  exact (List.mem_filter.mp h1).2

-- ── claim theorems ───────────────────────────────────────────────────

/-- C1: for every query string, requesting owner `A`, `k`, and index
contents, `retrieve_relevant_chunks` returns only chunks whose `user_id`
metadata equals `str(A)`; it never returns a chunk carrying a different
owner id. -/
theorem retrieve_owner_isolation
    (score : String → Chunk → Int) (vs : FAISSStore) (q : String) (A k : Nat)
    (c : Chunk) (hc : c ∈ retrieve_relevant_chunks score vs q A k) :
    metaGet c.metadata "user_id" = some (toString A) ∧
      ∀ B : Nat, toString B ≠ toString A →
        metaGet c.metadata "user_id" ≠ some (toString B) := by
  have hm : c ∈ vs.similarity_search (score q) k (max 20 vs.ntotal)
      "user_id" (toString A) := hc
  have hf := mem_similarity_search_filterMatch hm
  have heq : metaGet c.metadata "user_id" = some (toString A) := eq_of_beq hf
  refine ⟨heq, ?_⟩
  intro B hB hEq
  rw [heq] at hEq
  exact hB (Option.some.inj hEq).symm

/-- C1 witness: in the concrete two-entry store `vs42`, the chunk of
user 7 is returned to user 7 and carries owner metadata "7". -/
theorem retrieve_owner_isolation_witness :
    chunk42 ∈ retrieve_relevant_chunks score0 vs42 "alpha" 7 4 ∧
    metaGet chunk42.metadata "user_id" = some (toString 7) :=
  ⟨by decide, (retrieve_owner_isolation score0 vs42 "alpha" 7 4 chunk42 (by decide)).1⟩

/-- C6: the retrieval result never exceeds `k` entries, and (the search
pool being `max(20, ntotal)`, which covers the whole index) its length is
exactly `min k (number of the owner's chunks in the index)`. -/
theorem retrieve_k_bound
    (score : String → Chunk → Int) (vs : FAISSStore) (q : String) (A k : Nat) :
    (retrieve_relevant_chunks score vs q A k).length ≤ k ∧
    (retrieve_relevant_chunks score vs q A k).length =
      min k (vs.docs.countP (filterMatch "user_id" (toString A))) := by
  constructor
  · exact List.length_take_le ..
  · show ((((sortBy (fun a b => decide (score q a ≤ score q b)) vs.docs).take
        (max 20 vs.ntotal)).filter
        (filterMatch "user_id" (toString A))).take k).length = _
    have hlen : (sortBy (fun a b => decide (score q a ≤ score q b)) vs.docs).length
        ≤ max 20 vs.ntotal := by
      rw [length_sortBy]; exact le_max_right _ _
    rw [List.take_of_length_le hlen, List.length_take,
      ← List.countP_eq_length_filter,
      (perm_sortBy (fun a b => decide (score q a ≤ score q b)) vs.docs).countP_eq]

/-- C8: with no persisted files on disk, vector-store initialization
creates an index holding exactly the one placeholder entry (owner "0",
document "0") and persists it immediately; with persisted files it loads
them and leaves the disk untouched. -/
theorem vectorstore_bootstrap (disk : DiskState) :
    (disk.persisted = none →
      _get_vectorstore none disk =
        ({ docs := [placeholderDoc] }, some { docs := [placeholderDoc] },
          { persisted := some { docs := [placeholderDoc] } }) ∧
      ([placeholderDoc] : List Chunk).length = 1 ∧
      metaGet placeholderDoc.metadata "user_id" = some "0" ∧
      metaGet placeholderDoc.metadata "doc_id" = some "0") ∧
    (∀ s, disk.persisted = some s → _get_vectorstore none disk = (s, some s, disk)) := by
  obtain ⟨p⟩ := disk
  constructor
  · intro h
    cases p with
    | none => exact ⟨rfl, rfl, rfl, rfl⟩
    | some s => cases h
  · intro s hs
    cases p with
    | none => cases hs
    | some t =>
      have ht : t = s := Option.some.inj hs
      subst ht
      rfl

/-- C8 witness: initialization on an empty disk at the concrete input. -/
theorem vectorstore_bootstrap_witness :
    _get_vectorstore none ⟨none⟩ =
      ({ docs := [placeholderDoc] }, some { docs := [placeholderDoc] },
        { persisted := some { docs := [placeholderDoc] } }) :=
  ((vectorstore_bootstrap ⟨none⟩).1 rfl).1

/-- C10: a chat request whose question is missing, empty, or whitespace
only is answered with the "Empty question." error and HTTP 400 before the
retrieval or generation stages run. -/
theorem chat_empty_question_rejected
    (score : String → Chunk → Int) (vs : FAISSStore)
    (invoke : String → Nat → Except PyExc String) (user_id : Nat)
    (q : Option String) (h : pyStrip (q.getD "") = "") :
    chat score vs invoke user_id (some ⟨q⟩) =
      ⟨[("error", "Empty question.")], 400, false, false⟩ := by
  unfold chat
  simp [h]

/-- C10 witness: a whitespace-only question at the concrete input. -/
theorem chat_empty_question_rejected_witness :
    chat score0 vs0 invoke0 7 (some ⟨some "   "⟩) =
      ⟨[("error", "Empty question.")], 400, false, false⟩ :=
  chat_empty_question_rejected score0 vs0 invoke0 7 (some "   ") (by decide)

/-- C2: `delete_chunks` leaves the store bit-for-bit unchanged and, the
retrieval filter checking only `user_id`, a later same-owner retrieval
still returns the deleted document's chunk — the exclusion promised by
the function's own docstring does not happen. -/
theorem delete_chunks_soft_delete_gap :
    delete_chunks vs42 "42" = vs42 ∧
    retrieve_relevant_chunks score0 (delete_chunks vs42 "42") "alpha" 7 4 =
      [chunk42] ∧
    metaGet chunk42.metadata "doc_id" = some "42" := by decide

/-- One unclassified-failure step of the retry loop: with attempts left
it sleeps and retries; on the last attempt it returns the generic
failure string. -/
theorem genGo_step_unclassified (f : Nat → Except PyExc String) (e : PyExc)
    (attempt left calls sleeps : Nat)
    (hf : f attempt = .error e)
    (h1 : pyIn "connection refused" (pyLower e.msg) = false)
    (h2 : pyIn "connect" (pyLower e.msg) = false)
    (h3 : pyIn "not found" (pyLower e.msg) = false) :
    genGo f attempt (left + 2) calls sleeps =
      genGo f (attempt + 1) (left + 1) (calls + 1) (sleeps + 1) ∧
    genGo f attempt 1 calls sleeps =
      ⟨.returned (LOCAL_GEN_FAILED_MSG ++ e.msg), calls + 1, sleeps⟩ := by
  constructor
  · show genGo f attempt (left + 1 + 1) calls sleeps = _
    conv_lhs => unfold genGo
    rw [hf]
    simp [h1, h2, h3]
  · show genGo f attempt (0 + 1) calls sleeps = _
    conv_lhs => unfold genGo
    rw [hf]
    simp [h1, h2, h3]

/-- C4 (amended): a backend raising a rate-limit-classified error (one
matching none of the connection/not-found classifiers) on every
invocation is called exactly 3 times with a back-off sleep between
attempts, and `generate_answer` then returns the generic
local-generation-failure string — not a rate-limit-specific message —
without propagating an exception. -/
theorem generate_transient_retry_bound (e : PyExc)
    (h1 : pyIn "connection refused" (pyLower e.msg) = false)
    (h2 : pyIn "connect" (pyLower e.msg) = false)
    (h3 : pyIn "not found" (pyLower e.msg) = false)
    (_h4 : is_rate_limit e = true) :
    generate_answer (fun _ => .error e) 3 =
      ⟨.returned (LOCAL_GEN_FAILED_MSG ++ e.msg), 3, 2⟩ := by
  have s1 : genGo (fun _ => .error e) 0 3 0 0 = genGo (fun _ => .error e) 1 2 1 1 :=
    (genGo_step_unclassified (fun _ => .error e) e 0 1 0 0 rfl h1 h2 h3).1
  have s2 : genGo (fun _ => .error e) 1 2 1 1 = genGo (fun _ => .error e) 2 1 2 2 :=
    (genGo_step_unclassified (fun _ => .error e) e 1 0 1 1 rfl h1 h2 h3).1
  have s3 : genGo (fun _ => .error e) 2 1 2 2 =
      ⟨.returned (LOCAL_GEN_FAILED_MSG ++ e.msg), 3, 2⟩ :=
    (genGo_step_unclassified (fun _ => .error e) e 2 0 2 2 rfl h1 h2 h3).2
  show genGo (fun _ => .error e) 0 3 0 0 = _
  rw [s1, s2, s3]

/-- C4 witness: the concrete rate-limit error "429 quota exceeded". -/
theorem generate_transient_retry_bound_witness :
    generate_answer (fun _ => .error rateLimitExc) 3 =
      ⟨.returned (LOCAL_GEN_FAILED_MSG ++ "429 quota exceeded"), 3, 2⟩ :=
  generate_transient_retry_bound rateLimitExc (by decide) (by decide) (by decide)
    (by decide)

/-- C4 counterexample: for the always-rate-limited backend the claimed
behavior fails — the repository's own classifier marks the error as rate
limit, yet `generate_answer` returns the generic failure string, which is
not the designated rate-limit message of the chat handler. -/
theorem generate_rate_limit_counterexample :
    is_rate_limit rateLimitExc = true ∧
    generate_answer (fun _ => .error rateLimitExc) 3 =
      ⟨.returned (LOCAL_GEN_FAILED_MSG ++ "429 quota exceeded"), 3, 2⟩ ∧
    LOCAL_GEN_FAILED_MSG ++ "429 quota exceeded" ≠ RATE_LIMIT_MSG := by decide

/-- Helper for C5: the retry loop always ends in a returned string, for
every backend behavior, attempt index and budget. -/
theorem genGo_never_raises (invoke : Nat → Except PyExc String) :
    ∀ (left attempt calls sleeps : Nat), ∃ text c s,
      genGo invoke attempt left calls sleeps = ⟨.returned text, c, s⟩ := by
  intro left
  induction left with
  | zero => exact fun _ _ _ => ⟨NO_ANSWER_MSG, _, _, rfl⟩
  | succ n ih =>
    intro attempt calls sleeps
    unfold genGo
    cases hinv : invoke attempt with
    | ok r => exact ⟨r, _, _, rfl⟩
    | error e =>
      simp only []
      split
      · exact ⟨_, _, _, rfl⟩
      · split
        · exact ⟨_, _, _, rfl⟩
        · split
          · exact ⟨_, _, _, rfl⟩
          · exact ih (attempt + 1) (calls + 1) (sleeps + 1)

/-- C5 (amended): no generation failure propagates — for every backend
behavior and every retry budget, `generate_answer` hands its caller a
returned string (unclassified failures included, which are converted to
the generic failure string after the budget is spent). -/
theorem generate_answer_never_raises (invoke : Nat → Except PyExc String)
    (retries : Nat) :
    ∃ text calls sleeps,
      generate_answer invoke retries = ⟨.returned text, calls, sleeps⟩ :=
  genGo_never_raises invoke retries 0 0 0

/-- C5 counterexample: an unclassified failure ("boom") raised on every
attempt does not propagate after the 3-attempt budget; `generate_answer`
returns the generic failure string instead of raising. -/
theorem generate_unclassified_counterexample :
    generate_answer (fun _ => .error unclassifiedExc) 3 =
      ⟨.returned (LOCAL_GEN_FAILED_MSG ++ "boom"), 3, 2⟩ ∧
    (generate_answer (fun _ => .error unclassifiedExc) 3).outcome ≠
      GenOutcome.raised unclassifiedExc := by decide

/-- C3 counterexample: with zero retrieved chunks the chat path answers
with the no-documents sentence, not the fixed refusal sentence of the
grounded prompt (though it indeed performs no generation call). -/
theorem chat_refusal_counterexample :
    retrieve_relevant_chunks score0 vs0 "hello" 7 4 = [] ∧
    (chat score0 vs0 invoke0 7 (some ⟨some "hello"⟩)).generationCalled = false ∧
    (chat score0 vs0 invoke0 7 (some ⟨some "hello"⟩)).json ≠
      [("answer", REFUSAL_SENTENCE)] := by decide

/-- C3 (amended): when retrieval returns zero chunks for a non-empty
question, the chat path answers exactly "No relevant documents found.
Try uploading some notes first!" with status 200 and performs no
language-model call. -/
theorem chat_no_docs_path (score : String → Chunk → Int) (vs : FAISSStore)
    (invoke : String → Nat → Except PyExc String) (user_id : Nat) (q : String)
    (h1 : ¬ pyStrip q = "")
    (h2 : retrieve_relevant_chunks score vs (pyStrip q) user_id 4 = []) :
    chat score vs invoke user_id (some ⟨some q⟩) =
      ⟨[("answer", NO_DOCS_MSG)], 200, true, false⟩ := by
  unfold chat
  simp [h1, h2]

/-- C3 witness: the no-documents path at a concrete input. -/
theorem chat_no_docs_path_witness :
    chat score0 vs0 invoke0 7 (some ⟨some "hello"⟩) =
      ⟨[("answer", NO_DOCS_MSG)], 200, true, false⟩ :=
  chat_no_docs_path score0 vs0 invoke0 7 "hello" (by decide) (by decide)

/-- C7 counterexample: a file whose extension is outside {pdf, txt, md}
but whose content decodes is chunked successfully by `load_and_chunk` —
no unsupported-format failure exists in the chunker (the extension gate
lives upstream, in the upload route). -/
theorem load_and_chunk_counterexample :
    pyLower (splitextExt "essay.docx") = ".docx" ∧
    _allowed_file "essay.docx" = false ∧
    load_and_chunk splitter0 ⟨"essay.docx", some ["hello world"]⟩ =
      .ok [{ page_content := "hello world", metadata := [] }] :=
  ⟨by decide, by decide, rfl⟩

/-- C7 (amended): `load_and_chunk` raises no unsupported-format error —
it surfaces exactly the loader's extraction/decoding failures and
otherwise chunks whatever was extracted, for every extension; the
{pdf, txt, md} whitelist is enforced before it runs, by the upload
route's `_allowed_file` check. -/
theorem load_and_chunk_error_contract
    (splitter : List String → List Chunk) (f : SrcFile) :
    (f.extracted = none →
      load_and_chunk splitter f = .error (.extractionFailed f.path)) ∧
    (∀ pages, f.extracted = some pages →
      load_and_chunk splitter f = .ok (splitter pages)) ∧
    (∀ filename : String, _allowed_file filename = true →
      ALLOWED_EXTENSIONS.contains (pyLower (rsplitLast filename)) = true) := by
  refine ⟨?_, ?_, ?_⟩
  · intro h
    simp only [load_and_chunk, h]
    split <;> rfl
  · intro pages h
    simp only [load_and_chunk, h]
    split <;> rfl
  · intro filename h
    simp only [_allowed_file, Bool.and_eq_true] at h
    exact h.2

/-- C7 witness: an undecodable text file fails with the extraction error. -/
theorem load_and_chunk_error_contract_witness :
    load_and_chunk splitter0 ⟨"broken.txt", none⟩ =
      .error (.extractionFailed "broken.txt") :=
  (load_and_chunk_error_contract splitter0 ⟨"broken.txt", none⟩).1 rfl

/-- C9: for every client request, the item count each generation route
interpolates into its prompt is clamped — quiz questions to at most 10,
puzzles to at most 12, question-bank items to at most 10. -/
theorem generation_count_clamped (score : String → Chunk → Int) (vs : FAISSStore)
    (invoke : String → Nat → Except PyExc String) (user_id : Nat)
    (dq : Option QuizReq) (dp : Option PuzzleReq) (dn : Option QuestionsReq) :
    ((quiz_generate score vs invoke user_id dq).promptCount.all
      (fun n => decide (n ≤ 10))) = true ∧
    ((puzzle_generate score vs invoke user_id dp).promptCount.all
      (fun n => decide (n ≤ 12))) = true ∧
    ((questions_generate score vs invoke user_id dn).promptCount.all
      (fun n => decide (n ≤ 10))) = true := by
  refine ⟨?_, ?_, ?_⟩
  · cases dq with
    | none => rfl
    | some d =>
      unfold quiz_generate
      simp only [apply_ite RouteResult.promptCount, apply_ite (Option.all _)]
      split
      all_goals
        split
        · rfl
        · split <;> simp [Option.all, inf_le_right]
  · cases dp with
    | none => rfl
    | some d =>
      unfold puzzle_generate
      simp only [apply_ite RouteResult.promptCount, apply_ite (Option.all _)]
      split
      · rfl
      · split <;> simp [Option.all, inf_le_right]
  · cases dn with
    | none => rfl
    | some d =>
      unfold questions_generate
      simp only [apply_ite RouteResult.promptCount, apply_ite (Option.all _)]
      split
      · rfl
      · split <;> simp [Option.all, inf_le_right]
